import Mathlib

/-!
Verification of the ext2-like filesystem core (`src/ext2m.h`).

The development shallowly embeds the geometry calculator, layout addressing,
probe, inode accessors, block allocator and the format procedure of the
source header.  Machine integers are modelled as `Nat`; the configured
deployment (1 KiB blocks, device sizes of a few MiB) keeps every quantity far
below the 32/64-bit bounds of the source, and theorems that range over
arbitrary device sizes carry explicit no-underflow side conditions instead.

The headers `config.h`, `bitmap.h` and `cache.h` are not part of the sources;
the constants and bit-vector semantics they provide are modelled from the
specification and marked as such below.
-/

namespace Ext2m

/-- Modelled from the spec: `config.h` is absent; one kibibyte. -/
def KB : Nat := 1024

/-- Modelled from the spec: `config.h` is absent; the source works "only for
BLOCK_SIZE = 1KB" (its own comments), so the configured block size is 1 KiB. -/
def BLOCK_SIZE : Nat := 1 * KB

/-- Modelled from the spec: `config.h` is absent; the standard ext2 inode
record size, which the spec calls "the configured constant". -/
def INODE_SIZE : Nat := 128

/-- Modelled from the spec: `config.h` is absent; the standard ext2 group
descriptor size (`sizeof(ext2_group_desc)`). -/
def GROUP_DESC_SIZE : Nat := 32

/-- Standard ext2 superblock magic value. -/
def EXT2_SUPER_MAGIC : Nat := 0xEF53

/-- First non-reserved inode number of revision-0 ext2. -/
def EXT2_GOOD_OLD_FIRST_INO : Nat := 11

/-- Directory bit of the inode mode field. -/
def EXT2_S_IFDIR : Nat := 0x4000

/-- Directory-entry file type tag. -/
def EXT2_FT_DIR : Nat := 2

/-- Source: `constexpr auto ceil(x, y) { return (x + y - 1) / y; }` -/
def ceil (x y : Nat) : Nat := (x + y - 1) / y

/-- Source: `constexpr auto roundup(x, y) { return ((x + y - 1) / y) * y; }` -/
def roundup (x y : Nat) : Nat := (x + y - 1) / y * y

/-- Count trailing zero bits of `x`, examining at most `fuel` bits. -/
def ctzAux : Nat → Nat → Nat
  | 0, _ => 0
  | fuel + 1, x => if x % 2 = 0 ∧ x ≠ 0 then ctzAux fuel (x / 2) + 1 else 0

/-- Source: `__builtin_ctzll(x)`, the count of trailing zero bits of a 64-bit
value; equal to the base-2 logarithm on the powers of two it is applied to
(`BLOCK_SIZE / 1024`). -/
def log2 (x : Nat) : Nat := ctzAux 64 x

/-- Source: `constexpr auto bytes_per_inode = 2 * KB;` -/
def bytes_per_inode : Nat := 2 * KB

/-- Source: `constexpr auto MAX_BLOCKS_PER_GROUP = 8 * BLOCK_SIZE;`
parametrised by the block size for the geometry theorems. -/
def MAX_BLOCKS_PER_GROUP (bs : Nat) : Nat := 8 * bs

/-! Locals of `block_group_calculation`, one definition per `constexpr`
local, parametrised by the configured device size and block size. -/

/-- Source: `TOTAL_BLOCK = DISK_SIZE / BLOCK_SIZE`. -/
def TOTAL_BLOCK (ds bs : Nat) : Nat := ds / bs

/-- Source: `AVAILABLE_BLOCK = TOTAL_BLOCK - 1` (one reserved boot block). -/
def AVAILABLE_BLOCK (ds bs : Nat) : Nat := TOTAL_BLOCK ds bs - 1

/-- Source: `FULL_GROUP_COUNT = AVAILABLE_BLOCK / MAX_BLOCKS_PER_GROUP`. -/
def FULL_GROUP_COUNT (ds bs : Nat) : Nat :=
  AVAILABLE_BLOCK ds bs / MAX_BLOCKS_PER_GROUP bs

/-- Source: `REMAINING_BLOCK = AVAILABLE_BLOCK - MAX_BLOCKS_PER_GROUP * FULL_GROUP_COUNT`. -/
def REMAINING_BLOCK (ds bs : Nat) : Nat :=
  AVAILABLE_BLOCK ds bs - MAX_BLOCKS_PER_GROUP bs * FULL_GROUP_COUNT ds bs

/-- Source: `GROUP_COUNT = FULL_GROUP_COUNT + (REMAINING_BLOCK > 0 ? 1 : 0)`. -/
def GROUP_COUNT (ds bs : Nat) : Nat :=
  FULL_GROUP_COUNT ds bs + (if 0 < REMAINING_BLOCK ds bs then 1 else 0)

/-- Source: `blocks_per_group = (AVAILABLE_BLOCK - REMAINING_BLOCK) / FULL_GROUP_COUNT`. -/
def blocks_per_group (ds bs : Nat) : Nat :=
  (AVAILABLE_BLOCK ds bs - REMAINING_BLOCK ds bs) / FULL_GROUP_COUNT ds bs

/-- Source: `group_desc_block_count = ceil(FULL_GROUP_COUNT * GROUP_DESC_SIZE, BLOCK_SIZE)`. -/
def group_desc_block_count (ds bs : Nat) : Nat :=
  ceil (FULL_GROUP_COUNT ds bs * GROUP_DESC_SIZE) bs

/-- Source: `remain_block_size = (blocks_per_group - 3 - group_desc_block_count) * BLOCK_SIZE`. -/
def remain_block_size (ds bs : Nat) : Nat :=
  (blocks_per_group ds bs - 3 - group_desc_block_count ds bs) * bs

/-- Source: `m = remain_block_size / (bytes_per_inode + INODE_SIZE)`;
`inodes_per_group = m`. -/
def inodes_per_group (ds bs : Nat) : Nat :=
  remain_block_size ds bs / (bytes_per_inode + INODE_SIZE)

/-- Source: `inodes_table_block_count = ceil(inodes_per_group * INODE_SIZE, BLOCK_SIZE)`. -/
def inodes_table_block_count (ds bs : Nat) : Nat :=
  ceil (inodes_per_group ds bs * INODE_SIZE) bs

/-- Source: `data_block_count = blocks_per_group - 3 - group_desc_block_count - inodes_table_block_count`. -/
def data_block_count (ds bs : Nat) : Nat :=
  blocks_per_group ds bs - 3 - group_desc_block_count ds bs
    - inodes_table_block_count ds bs

/-- The tuple returned by `block_group_calculation`, as a record. -/
structure Geometry where
  fullGroupCount : Nat
  groupCount : Nat
  blocksPerGroup : Nat
  blocksLastGroup : Nat
  groupDescBlockCount : Nat
  inodesPerGroup : Nat
  inodesTableBlockCount : Nat
  dataBlockCount : Nat
deriving DecidableEq, Repr

/-- Source: `block_group_calculation()`, the pure geometry calculator. -/
def block_group_calculation (ds bs : Nat) : Geometry :=
  { fullGroupCount := FULL_GROUP_COUNT ds bs
  , groupCount := GROUP_COUNT ds bs
  , blocksPerGroup := blocks_per_group ds bs
  , blocksLastGroup := REMAINING_BLOCK ds bs
  , groupDescBlockCount := group_desc_block_count ds bs
  , inodesPerGroup := inodes_per_group ds bs
  , inodesTableBlockCount := inodes_table_block_count ds bs
  , dataBlockCount := data_block_count ds bs }

/-! The on-disk data model.  A block is modelled by its typed content; the
source writes raw bytes, and each reader below corresponds to the C cast it
performs.  A `zero` block reads as all-zero content under every cast, exactly
as a zero-filled 1 KiB buffer does. -/

/-- The superblock fields the modelled operations read or write.  The
remaining fields of `ext2_super_block` (timestamps, uuid, feature flags, …)
are set by `format` to constants no modelled claim inspects. -/
structure SuperBlock where
  s_inodes_count : Nat
  s_blocks_count : Nat
  s_free_blocks_count : Nat
  s_free_inodes_count : Nat
  s_first_data_block : Nat
  s_log_block_size : Nat
  s_blocks_per_group : Nat
  s_inodes_per_group : Nat
  s_magic : Nat
  s_first_ino : Nat
  s_inode_size : Nat
deriving DecidableEq, Repr

/-- A zero-filled buffer read as a superblock. -/
def zeroSuperBlock : SuperBlock := ⟨0, 0, 0, 0, 0, 0, 0, 0, 0, 0, 0⟩

/-- Source: `ext2_group_desc`. -/
structure GroupDesc where
  bg_block_bitmap : Nat
  bg_inode_bitmap : Nat
  bg_inode_table : Nat
  bg_free_blocks_count : Nat
  bg_free_inodes_count : Nat
  bg_used_dirs_count : Nat
deriving DecidableEq, Repr

/-- Source: `ext2_inode` (fields the format procedure assigns). -/
structure Inode where
  i_mode : Nat
  i_uid : Nat
  i_size : Nat
  i_atime : Nat
  i_ctime : Nat
  i_mtime : Nat
  i_dtime : Nat
  i_gid : Nat
  i_links_count : Nat
  i_blocks : Nat
  i_flags : Nat
  i_block : List Nat
deriving DecidableEq, Repr

/-- A zero-filled inode record (15 direct/indirect pointer slots). -/
def zeroInode : Inode := ⟨0, 0, 0, 0, 0, 0, 0, 0, 0, 0, 0, List.replicate 15 0⟩

/-- Source: `ext2_dir_entry_2`. -/
structure DirEntry where
  inode : Nat
  rec_len : Nat
  name_len : Nat
  file_type : Nat
  name : String
deriving DecidableEq, Repr

/-- Typed content of one device block. -/
inductive Block where
  | boot
  | super (sb : SuperBlock)
  | descs (tab : List GroupDesc)
  | bitmap (bits : Nat → Bool)
  | inodeTable (recs : Nat → Inode)
  | dir (entries : List DirEntry)
  | zero

/-- The block device: content of every block index. -/
abbrev Disk := Nat → Block

/-- A blank (all-zero) device. -/
def blankDisk : Disk := fun _ => Block.zero

/-- Cast a block buffer to `ext2_super_block*`; a zero block yields the
all-zero record.  The other constructors are never read as superblocks by the
modelled scenarios. -/
def readSuper : Block → SuperBlock
  | Block.super sb => sb
  | _ => zeroSuperBlock

/-- Wrap a block buffer as a bit vector; a zero block has every bit unset. -/
def readBitmap : Block → (Nat → Bool)
  | Block.bitmap f => f
  | _ => fun _ => false

/-- Cast a block buffer to `ext2_inode*`; a zero block holds all-zero
records. -/
def readInodeTable : Block → (Nat → Inode)
  | Block.inodeTable f => f
  | _ => fun _ => zeroInode

/-- Cast a block buffer to `ext2_group_desc*`. -/
def readDescs : Block → List GroupDesc
  | Block.descs tab => tab
  | _ => []

/-- Source: `_disk.write_block(i, buf)`. -/
def writeBlock (d : Disk) (i : Nat) (b : Block) : Disk :=
  fun j => if j = i then b else d j

/-- Effect of the source's `while (start_ind < end_ind) write_block(start_ind, zero)`
loop: every block index in `[lo, hi)` becomes `b`. -/
def writeRange (d : Disk) (lo hi : Nat) (b : Block) : Disk :=
  fun j => if lo ≤ j ∧ j < hi then b else d j

/-! Layout addressing (the private member functions). -/

/-- Source: `get_group_index`: `group_index * blocks_per_group + 1`. -/
def get_group_index (g : Geometry) (i : Nat) : Nat := i * g.blocksPerGroup + 1

/-- Source: `get_group_super_block_index`. -/
def get_group_super_block_index (g : Geometry) (i : Nat) : Nat :=
  get_group_index g i + 0

/-- Source: `get_group_group_desc_table_index`. -/
def get_group_group_desc_table_index (g : Geometry) (i : Nat) : Nat :=
  get_group_index g i + 1

/-- Source: `get_group_block_bitmap_index`. -/
def get_group_block_bitmap_index (g : Geometry) (i : Nat) : Nat :=
  get_group_group_desc_table_index g i + g.groupDescBlockCount

/-- Source: `get_group_inode_bitmap_index`. -/
def get_group_inode_bitmap_index (g : Geometry) (i : Nat) : Nat :=
  get_group_block_bitmap_index g i + 1

/-- Source: `get_group_inode_table_index`. -/
def get_group_inode_table_index (g : Geometry) (i : Nat) : Nat :=
  get_group_inode_bitmap_index g i + 1

/-- Source: `get_group_data_table_index`. -/
def get_group_data_table_index (g : Geometry) (i : Nat) : Nat :=
  get_group_inode_table_index g i + g.inodesTableBlockCount

/-- Source: `check_is_ext2_format()`: read block 1, cast to a superblock and
and-accumulate the six checks. -/
def check_is_ext2_format (d : Disk) : Bool :=
  let sb := readSuper (d 1)
  (sb.s_magic == EXT2_SUPER_MAGIC)
    && (1024 * 2 ^ sb.s_log_block_size == BLOCK_SIZE)
    && (sb.s_first_data_block == 1)
    && (decide (sb.s_inodes_per_group ≤ 8 * BLOCK_SIZE))
    && (sb.s_first_ino == EXT2_GOOD_OLD_FIRST_INO)
    && (sb.s_inode_size == INODE_SIZE)

/-! Inode accessors. -/

/-- The two `assert`s of `get_inode`/`write_inode`: the inode number is at
least 1 and its group index is below the full group count. -/
def inode_num_valid (g : Geometry) (k : Nat) : Prop :=
  1 ≤ k ∧ (k - 1) / g.inodesPerGroup < g.fullGroupCount

instance (g : Geometry) (k : Nat) : Decidable (inode_num_valid g k) := by
  unfold inode_num_valid; exact inferInstance

/-- The block index `get_inode`/`write_inode` read: the source always reads
the group's first inode-table block (`get_group_inode_table_index`), whatever
the in-group index is. -/
def get_inode_block_index (g : Geometry) (k : Nat) : Nat :=
  get_group_inode_table_index g ((k - 1) / g.inodesPerGroup)

/-- Modelled from the spec: "Load/modify/store exactly the one block of the
inode table containing that index" — the inode-table block that actually
holds in-group record `(k-1) % inodes_per_group`, each block holding
`BLOCK_SIZE / INODE_SIZE` records. -/
def inode_block_containing (g : Geometry) (k : Nat) : Nat :=
  get_group_inode_table_index g ((k - 1) / g.inodesPerGroup)
    + (k - 1) % g.inodesPerGroup * INODE_SIZE / BLOCK_SIZE

/-- Source: `get_inode(inode_num, inode)`.  The source casts its single-block
buffer to `ext2_inode*` and reads entry `(k-1) % inodes_per_group` of the
group's FIRST inode-table block; for in-group indexes beyond
`BLOCK_SIZE / INODE_SIZE - 1` that access runs past the 1 KiB buffer (the C7
issue). -/
def get_inode (g : Geometry) (d : Disk) (k : Nat) : Inode :=
  let group := (k - 1) / g.inodesPerGroup
  let ind := (k - 1) % g.inodesPerGroup
  readInodeTable (d (get_group_inode_table_index g group)) ind

/-- Source: `write_inode(inode_num, inode)`: read-modify-write of the same
(first) inode-table block of the group. -/
def write_inode (g : Geometry) (d : Disk) (k : Nat) (ino : Inode) : Disk :=
  let group := (k - 1) / g.inodesPerGroup
  let ind := (k - 1) % g.inodesPerGroup
  let blk := get_group_inode_table_index g group
  let tab := readInodeTable (d blk)
  writeBlock d blk (Block.inodeTable (fun x => if x = ind then ino else tab x))

/-! Probe/Load: `read_info` and the in-memory state it populates. -/

/-- The five member fields `read_info` (and `format`) assign. -/
structure FsInfo where
  full_group_count : Nat
  blocks_per_group : Nat
  inodes_per_group : Nat
  group_desc_block_count : Nat
  inodes_table_block_count : Nat
deriving DecidableEq, Repr

/-- Source: `read_info()`: reconstruct the in-memory geometry from the
superblock at block 1. -/
def read_info (d : Disk) : FsInfo :=
  let sb := readSuper (d 1)
  { full_group_count := sb.s_inodes_count / sb.s_inodes_per_group
  , blocks_per_group := sb.s_blocks_per_group
  , inodes_per_group := sb.s_inodes_per_group
  , group_desc_block_count :=
      ceil (sb.s_inodes_count / sb.s_inodes_per_group * GROUP_DESC_SIZE) BLOCK_SIZE
  , inodes_table_block_count := ceil (sb.s_inodes_per_group * INODE_SIZE) BLOCK_SIZE }

/-- The in-memory geometry state `format` stores (its five member
assignments), for comparison with `read_info`. -/
def format_info (g : Geometry) : FsInfo :=
  { full_group_count := g.fullGroupCount
  , blocks_per_group := g.blocksPerGroup
  , inodes_per_group := g.inodesPerGroup
  , group_desc_block_count := g.groupDescBlockCount
  , inodes_table_block_count := g.inodesTableBlockCount }

/-! Block allocator: `get_free_block_indexes`. -/

/-- Modelled from the spec: `bitmap.h` is not in the sources; `set(j)` turns
bit `j` of an in-memory bitmap on. -/
def bitSet (f : Nat → Bool) (j : Nat) : Nat → Bool :=
  fun x => if x = j then true else f x

/-- Scan for an unset bit starting at `j`, examining `fuel` positions. -/
def nextBitAux (f : Nat → Bool) : Nat → Nat → Option Nat
  | _, 0 => none
  | j, fuel + 1 => if f j then nextBitAux f (j + 1) fuel else some j

/-- Modelled from the spec: `bitmap.h` is not in the sources; `next_unset(from)`
returns the least unset bit index at or after `from`, below the bit count, or
none. -/
def nextBit (f : Nat → Bool) (size start : Nat) : Option Nat :=
  nextBitAux f start (size - start)

/-- The inner `while (start != -1)` loop of `get_free_block_indexes` on one
group's in-memory bitmap: repeatedly find the next unset bit, record its
absolute address, set it, and decrement the count.  Returns the final
in-memory bitmap, the accumulated addresses and the remaining count.
The source decrements an unsigned count, so a call with `count = 0` is never
made by its callers; here it stops after one found bit. -/
def scan_group_bitmap (size base : Nat) :
    Nat → (Nat → Bool) → Nat → List Nat → (Nat → Bool) × List Nat × Nat
  | count, f, start, acc =>
    match nextBit f size start, count with
    | none, _ => (f, acc, count)
    | some j, 0 => (bitSet f j, acc ++ [j + base], 0)
    | some j, 1 => (bitSet f j, acc ++ [j + base], 0)
    | some j, c + 2 =>
      scan_group_bitmap size base (c + 1) (bitSet f j) j (acc ++ [j + base])

/-- The outer `for (i = group_id; (i+1) % full_group_count != group_id; ...)`
loop.  `fuel` bounds the iteration count; the real loop performs at most
`full_group_count - 1` body executions when `group_id` is a valid group, so
the fuel of `get_free_block_indexes` below is never exhausted there.  On
normal exit the accumulated result is discarded (`return {}`), exactly as in
the source. -/
def alloc_loop (g : Geometry) (d : Disk) (group_id : Nat) :
    Nat → Nat → Nat → List Nat → List Nat
  | 0, _, _, _ => []
  | fuel + 1, i, count, acc =>
    if (i + 1) % g.fullGroupCount ≠ group_id then
      let base := get_group_index g i
      let f := readBitmap (d (get_group_block_bitmap_index g i))
      let r := scan_group_bitmap g.blocksPerGroup base count f 0 acc
      if r.2.2 = 0 then r.2.1
      else alloc_loop g d group_id fuel ((i + 1) % g.fullGroupCount) r.2.2 r.2.1
    else []

/-- Source: `get_free_block_indexes(group_id, count)`.  Note that the source
mutates only the in-memory `BitMap` wrapped around its scratch buffer and
never calls `write_group_block_bitmap`, so the device is left unchanged — the
embedding is accordingly a pure reader of `d`. -/
def get_free_block_indexes (g : Geometry) (d : Disk) (group_id count : Nat) :
    List Nat :=
  alloc_loop g d group_id g.fullGroupCount group_id count []

/-- The iteration sequence of `alloc_loop`'s group walk (the `i` values for
which the body runs), used to reason about the visited groups. -/
def visit_seq (fgc g0 : Nat) : Nat → Nat → List Nat
  | 0, _ => []
  | fuel + 1, i =>
    if (i + 1) % fgc ≠ g0 then i :: visit_seq fgc g0 fuel ((i + 1) % fgc) else []

/-- Number of unset bits among the first `size` bits of `f`. -/
def freeCount (f : Nat → Bool) (size : Nat) : Nat :=
  ((Finset.range size).filter (fun j => f j = false)).card

/-- Free blocks recorded in one group's on-disk block bitmap. -/
def group_free_count (g : Geometry) (d : Disk) (i : Nat) : Nat :=
  freeCount (readBitmap (d (get_group_block_bitmap_index g i))) g.blocksPerGroup

/-- Free blocks recorded across all full groups' on-disk block bitmaps. -/
def total_free_blocks (g : Geometry) (d : Disk) : Nat :=
  ((List.range g.fullGroupCount).map (group_free_count g d)).sum

/-! The format procedure. -/

/-- The superblock value `format` builds (modelled fields).  The source first
sets `s_free_blocks_count = blocks_per_group * full_group_count` and later
subtracts `(3 + group_desc_block_count + inodes_table_block_count) *
full_group_count` before writing; the combined value appears here. -/
def format_super_block (g : Geometry) : SuperBlock :=
  { s_inodes_count := g.inodesPerGroup * g.fullGroupCount
  , s_blocks_count := MAX_BLOCKS_PER_GROUP BLOCK_SIZE * g.fullGroupCount
  , s_free_blocks_count :=
      g.blocksPerGroup * g.fullGroupCount
        - (3 + g.groupDescBlockCount + g.inodesTableBlockCount) * g.fullGroupCount
  , s_free_inodes_count := g.inodesPerGroup * g.fullGroupCount
  , s_first_data_block := if BLOCK_SIZE = 1 * KB then 1 else 0
  , s_log_block_size := log2 (BLOCK_SIZE / 1024)
  , s_blocks_per_group := g.blocksPerGroup
  , s_inodes_per_group := g.inodesPerGroup
  , s_magic := EXT2_SUPER_MAGIC
  , s_first_ino := EXT2_GOOD_OLD_FIRST_INO
  , s_inode_size := INODE_SIZE }

/-- The group descriptor `format` builds for group `i`. -/
def format_group_desc (g : Geometry) (i : Nat) : GroupDesc :=
  { bg_block_bitmap := get_group_block_bitmap_index g i
  , bg_inode_bitmap := get_group_inode_bitmap_index g i
  , bg_inode_table := get_group_inode_table_index g i
  , bg_free_blocks_count :=
      g.blocksPerGroup - 3 - g.groupDescBlockCount - g.inodesTableBlockCount
  , bg_free_inodes_count := g.inodesPerGroup
  , bg_used_dirs_count := 0 }

/-- The whole group descriptor table `format` builds. -/
def format_group_desc_table (g : Geometry) : List GroupDesc :=
  (List.range g.fullGroupCount).map (format_group_desc g)

/-- The slice of the descriptor table stored in block `k` of a group's
descriptor-table region (`BLOCK_SIZE / GROUP_DESC_SIZE` records per block). -/
def desc_table_chunk (tab : List GroupDesc) (k : Nat) : List GroupDesc :=
  (tab.drop (k * (BLOCK_SIZE / GROUP_DESC_SIZE))).take (BLOCK_SIZE / GROUP_DESC_SIZE)

/-- Source: `write_super_block_to_group`. -/
def write_super_block_to_group (g : Geometry) (sb : SuperBlock) (i : Nat)
    (d : Disk) : Disk :=
  writeBlock d (get_group_super_block_index g i) (Block.super sb)

/-- Source: `write_group_desc_table_to_group`: one write per descriptor-table
block. -/
def write_group_desc_table_to_group (g : Geometry) (tab : List GroupDesc)
    (i : Nat) (d : Disk) : Disk :=
  (List.range g.groupDescBlockCount).foldl
    (fun d k =>
      writeBlock d (get_group_group_desc_table_index g i + k)
        (Block.descs (desc_table_chunk tab k))) d

/-- Effect of the `for (_j = 0; _j < n; _j++) bm.set(_j)` loop on an
in-memory bitmap: every bit below `n` becomes set. -/
def setBitsBelow (f : Nat → Bool) (n : Nat) : Nat → Bool :=
  fun x => if x < n then true else f x

/-- The per-group initialisation of `format`: zero every block from the
group's inode-bitmap block to the end of the group, then load the (never
zeroed) block bitmap, mark the `3 + group_desc_block_count +
inodes_table_block_count` metadata blocks used and store it. -/
def format_init_group (g : Geometry) (i : Nat) (d : Disk) : Disk :=
  let d1 := writeRange d (get_group_inode_bitmap_index g i)
    (get_group_index g i + g.blocksPerGroup) Block.zero
  let f := readBitmap (d1 (get_group_block_bitmap_index g i))
  let fend := 3 + g.groupDescBlockCount + g.inodesTableBlockCount
  writeBlock d1 (get_group_block_bitmap_index g i)
    (Block.bitmap (setBitsBelow f fend))

/-- Steps 1–6 of `format`: boot block, superblock copies, descriptor-table
copies, per-group zeroing and block bitmaps.  (`sync` flushes the cache and
has no effect on the modelled device content.) -/
def format_metadata (ds : Nat) (d : Disk) : Disk :=
  let g := block_group_calculation ds BLOCK_SIZE
  let d0 := writeBlock d 0 Block.boot
  let sb := format_super_block g
  let tab := format_group_desc_table g
  let d1 := (List.range g.fullGroupCount).foldl
    (fun d i => write_super_block_to_group g sb i d) d0
  let d2 := (List.range g.fullGroupCount).foldl
    (fun d i => write_group_desc_table_to_group g tab i d) d1
  (List.range g.fullGroupCount).foldl (fun d i => format_init_group g i d) d2

/-- The root inode record `format` builds (`t` stands for the `time(NULL)`
calls).  The source builds this record but never passes it to `write_inode`,
so it is never stored in the inode table. -/
def format_root_inode (t a : Nat) : Inode :=
  { i_mode := EXT2_S_IFDIR ||| 0o755
  , i_uid := 0
  , i_size := 0
  , i_atime := t
  , i_ctime := t
  , i_mtime := t
  , i_dtime := 0
  , i_gid := 0
  , i_links_count := 2
  , i_blocks := 1
  , i_flags := 0
  , i_block := a :: List.replicate 14 0 }

/-- The bit index the source marks in group 0's in-memory inode bitmap for
the root directory (`bm.set(2)`), before discarding the bitmap unwritten. -/
def format_root_marked_bit : Nat := 2

/-- First directory entry written into the root block: `.`, inode 2, record
length `roundup(8 + name_len + 1, 4) = 12`. -/
def dot_entry : DirEntry :=
  { inode := 2, rec_len := roundup (8 + 1 + 1) 4, name_len := 1
  , file_type := EXT2_FT_DIR, name := "." }

/-- Second directory entry written into the root block: `..`, inode 2, record
length filling the rest of the block. -/
def dotdot_entry : DirEntry :=
  { inode := 2, rec_len := BLOCK_SIZE - roundup (8 + 1 + 1) 4, name_len := 2
  , file_type := EXT2_FT_DIR, name := ".." }

/-- Source: `format()`.  After the metadata steps the root-directory step
loads group 0's inode bitmap and sets bit 2 in the in-memory copy only (no
store follows, so the device is unchanged by that), builds the root inode
record (never written to the inode table), allocates one block and writes the
two directory entries into it.  When the allocator returns the empty vector
the source calls `front()` on it — undefined behaviour — modelled as `none`. -/
def format (ds : Nat) (d : Disk) : Option Disk :=
  let g := block_group_calculation ds BLOCK_SIZE
  let d1 := format_metadata ds d
  match get_free_block_indexes g d1 0 1 with
  | [] => none
  | a :: _ => some (writeBlock d1 a (Block.dir [dot_entry, dotdot_entry]))

/-- The block address the root directory's data lands on: the head of the
allocator's answer during `format`. -/
def root_block_index (ds : Nat) (d : Disk) : Nat :=
  (get_free_block_indexes (block_group_calculation ds BLOCK_SIZE)
    (format_metadata ds d) 0 1).headD 0

/-! Concrete configurations used by the evaluation theorems.  `config.h` is
not part of the sources, so the device size is modelled from the spec: the
spec's example scenario has exactly one full group (a 16 MiB device); a
32 MiB device gives three full groups, on which `format` runs to
completion. -/

/-- Modelled from the spec: a 16 MiB device — exactly one full group, the
spec's example scenario. -/
def DS1 : Nat := 16777216

/-- Modelled from the spec: a 32 MiB device — three full groups. -/
def DS2 : Nat := 33554432

/-- Geometry of the one-full-group configuration. -/
def geo1 : Geometry := block_group_calculation DS1 BLOCK_SIZE

/-- Geometry of the three-full-group configuration. -/
def geo2 : Geometry := block_group_calculation DS2 BLOCK_SIZE

/-- The device after `format`'s metadata steps on a blank 16 MiB device. -/
def meta1 : Disk := format_metadata DS1 blankDisk

/-- The device after a completed `format` of a blank 32 MiB device. -/
def img2 : Disk := (format DS2 blankDisk).getD blankDisk

/-- A small geometry for the allocator theorems' witnesses: two groups of
four blocks, one descriptor-table block. -/
def tiny_geometry : Geometry :=
  { fullGroupCount := 2, groupCount := 2, blocksPerGroup := 4
  , blocksLastGroup := 0, groupDescBlockCount := 1, inodesPerGroup := 2
  , inodesTableBlockCount := 1, dataBlockCount := 0 }

/-- A device for `tiny_geometry`: group 0's block bitmap (block 3) has the
single free bit 2; group 1's bitmap (block 7) is full. -/
def tiny_disk : Disk := fun j =>
  if j = 3 then Block.bitmap (fun x => x != 2)
  else if j = 7 then Block.bitmap (fun _ => true)
  else Block.zero

/-! Theorems.  First, supporting lemmas about the allocator. -/

set_option maxRecDepth 100000

/-- A successful `nextBitAux` scan returns an unset bit inside the scanned
window. -/
theorem nextBitAux_some {f : Nat → Bool} :
    ∀ fuel j r, nextBitAux f j fuel = some r →
      j ≤ r ∧ r < j + fuel ∧ f r = false := by
  intro fuel
  induction fuel with
  | zero => intro j r h; simp [nextBitAux] at h
  | succ n ih =>
    intro j r h
    unfold nextBitAux at h
    by_cases hf : f j
    · rw [if_pos hf] at h
      obtain ⟨h1, h2, h3⟩ := ih (j + 1) r h
      exact ⟨by omega, by omega, h3⟩
    · rw [if_neg hf] at h
      injection h with h
      subst h
      exact ⟨Nat.le_refl _, by omega, by simpa using hf⟩

/-- A successful `nextBit` search returns an unset bit of the bitmap, at or
after the cursor and below the bit count. -/
theorem nextBit_some {f : Nat → Bool} {size start r : Nat}
    (h : nextBit f size start = some r) :
    start ≤ r ∧ r < size ∧ f r = false := by
  obtain ⟨h1, h2, h3⟩ := nextBitAux_some _ _ _ h
  exact ⟨h1, by omega, h3⟩

/-- A bitmap with an unset bit below `size` has a positive free count. -/
theorem freeCount_pos {f : Nat → Bool} {size j : Nat} (hj : j < size)
    (hf : f j = false) : 0 < freeCount f size := by
  unfold freeCount
  refine Finset.card_pos.mpr ⟨j, ?_⟩
  simp [Finset.mem_filter, Finset.mem_range, hj, hf]

/-- Setting a free bit decrements the free count by one. -/
theorem freeCount_set {f : Nat → Bool} {size j : Nat} (hj : j < size)
    (hf : f j = false) :
    freeCount (bitSet f j) size = freeCount f size - 1 := by
  unfold freeCount bitSet
  have hfilter : (Finset.range size).filter
        (fun x => (if x = j then true else f x) = false)
      = ((Finset.range size).filter (fun x => f x = false)).erase j := by
    ext x
    simp only [Finset.mem_filter, Finset.mem_erase, Finset.mem_range]
    by_cases hx : x = j
    · subst hx; simp
    · simp [hx]
  rw [hfilter, Finset.card_erase_of_mem]
  exact Finset.mem_filter.mpr ⟨Finset.mem_range.mpr hj, hf⟩

/-- The inner scan of one group can hand out at most as many blocks as the
group's bitmap has free bits: the remaining count drops by at most
`freeCount f size`. -/
theorem scan_group_bitmap_bound (size base : Nat) :
    ∀ count f start acc,
      count - (scan_group_bitmap size base count f start acc).2.2
        ≤ freeCount f size := by
  intro count
  induction count using Nat.strong_induction_on with
  | _ count ih =>
    intro f start acc
    rw [scan_group_bitmap.eq_def]
    cases hnb : nextBit f size start with
    | none => simp [hnb]
    | some j =>
      obtain ⟨-, hj, hfj⟩ := nextBit_some hnb
      have hpos := freeCount_pos hj hfj
      match count with
      | 0 => simp [hnb]
      | 1 => simp [hnb]; omega
      | c + 2 =>
        have hset := freeCount_set hj hfj
        have hrec := ih (c + 1) (by omega) (bitSet f j) j (acc ++ [j + base])
        rw [hset] at hrec
        simp only [hnb]
        omega

/-- When the groups the loop will still visit cannot jointly supply `count`
blocks, `alloc_loop` falls out of its loop and returns the empty list. -/
theorem alloc_loop_empty (g : Geometry) (d : Disk) (g0 : Nat) :
    ∀ fuel i count acc,
      ((visit_seq g.fullGroupCount g0 fuel i).map (group_free_count g d)).sum
          < count →
      alloc_loop g d g0 fuel i count acc = [] := by
  intro fuel
  induction fuel with
  | zero => intro i count acc _; rfl
  | succ n ih =>
    intro i count acc h
    by_cases hc : (i + 1) % g.fullGroupCount ≠ g0
    · unfold visit_seq at h
      rw [if_pos hc, List.map_cons, List.sum_cons] at h
      unfold alloc_loop
      rw [if_pos hc]
      have hbound := scan_group_bitmap_bound g.blocksPerGroup
        (get_group_index g i)
        count (readBitmap (d (get_group_block_bitmap_index g i))) 0 acc
      have hfc : freeCount (readBitmap (d (get_group_block_bitmap_index g i)))
          g.blocksPerGroup = group_free_count g d i := rfl
      rw [hfc] at hbound
      rw [if_neg (by omega)]
      exact ih _ _ _ (by omega)
    · unfold alloc_loop
      rw [if_neg hc]

/-- Closed form of the loop's visiting sequence: starting from
`(g0 + k) % fgc` with `k + n = fgc`, the body runs for the `n - 1` groups
`(g0 + j) % fgc`, `j = k, …, k + n - 2`. -/
theorem visit_seq_closed (fgc g0 : Nat) (hg : g0 < fgc) :
    ∀ n k, k + n = fgc →
      visit_seq fgc g0 n ((g0 + k) % fgc)
        = (List.range' k (n - 1)).map (fun j => (g0 + j) % fgc) := by
  intro n
  induction n with
  | zero => intro k _; rfl
  | succ n ih =>
    intro k hk
    have hfgc : 0 < fgc := by omega
    unfold visit_seq
    by_cases hn : n = 0
    · subst hn
      have hmod : ((g0 + k) % fgc + 1) % fgc = g0 := by
        rw [Nat.mod_add_mod]
        have hgk : g0 + k + 1 = g0 + fgc := by omega
        rw [hgk, Nat.add_mod_right, Nat.mod_eq_of_lt hg]
      rw [if_neg (by simp [hmod])]
      simp
    · have hmod : ((g0 + k) % fgc + 1) % fgc = (g0 + (k + 1)) % fgc := by
        rw [Nat.mod_add_mod, Nat.add_assoc]
      have hcond : ((g0 + k) % fgc + 1) % fgc ≠ g0 := by
        rw [hmod]
        intro heq
        have h1 : Nat.ModEq fgc (g0 + (k + 1)) (g0 + 0) := by
          show (g0 + (k + 1)) % fgc = (g0 + 0) % fgc
          rw [heq, Nat.add_zero, Nat.mod_eq_of_lt hg]
        have h2 : Nat.ModEq fgc (k + 1) 0 := Nat.ModEq.add_left_cancel' g0 h1
        have h3 : fgc ∣ (k + 1) := (Nat.modEq_zero_iff_dvd).mp h2
        have h4 := Nat.le_of_dvd (by omega) h3
        omega
      rw [if_pos hcond, hmod, ih (k + 1) (by omega)]
      have hn1 : Nat.succ n - 1 = (n - 1) + 1 := by omega
      rw [hn1, List.range'_succ, List.map_cons]

/-- The sequence of groups visited when the scan starts at a valid group is
the `fgc - 1` groups after `g0` in round-robin order. -/
theorem visit_seq_from_start (fgc g0 : Nat) (hg : g0 < fgc) :
    visit_seq fgc g0 fgc g0
      = (List.range (fgc - 1)).map (fun j => (g0 + j) % fgc) := by
  have h := visit_seq_closed fgc g0 hg fgc 0 (by omega)
  rw [Nat.add_zero, Nat.mod_eq_of_lt hg, ← List.range_eq_range'] at h
  exact h

/-- The list of naturals below `n` seen as a finite set is `Finset.range n`. -/
theorem list_range_toFinset (n : Nat) :
    (List.range n).toFinset = Finset.range n := by
  ext x
  simp [List.mem_toFinset, List.mem_range, Finset.mem_range]

/-- The free blocks of the groups the allocator visits are at most the free
blocks of all full groups: the walk never revisits a group. -/
theorem visit_sum_le_total (g : Geometry) (d : Disk) (g0 : Nat)
    (hg : g0 < g.fullGroupCount) :
    ((visit_seq g.fullGroupCount g0 g.fullGroupCount g0).map
        (group_free_count g d)).sum
      ≤ total_free_blocks g d := by
  rw [visit_seq_from_start _ _ hg]
  have hpos : 0 < g.fullGroupCount := by omega
  have hnodup : ((List.range (g.fullGroupCount - 1)).map
      (fun j => (g0 + j) % g.fullGroupCount)).Nodup := by
    refine List.Nodup.map_on ?_ (List.nodup_range _)
    intro x hx y hy hxy
    rw [List.mem_range] at hx hy
    have hmx : Nat.ModEq g.fullGroupCount (g0 + x) (g0 + y) := hxy
    have hmy : Nat.ModEq g.fullGroupCount x y :=
      Nat.ModEq.add_left_cancel' g0 hmx
    have hxy2 : x % g.fullGroupCount = y % g.fullGroupCount := hmy
    have hx' : x % g.fullGroupCount = x := Nat.mod_eq_of_lt (by omega)
    have hy' : y % g.fullGroupCount = y := Nat.mod_eq_of_lt (by omega)
    omega
  have hmem : ∀ x ∈ (List.range (g.fullGroupCount - 1)).map
      (fun j => (g0 + j) % g.fullGroupCount), x < g.fullGroupCount := by
    intro x hx
    rw [List.mem_map] at hx
    obtain ⟨j, -, rfl⟩ := hx
    exact Nat.mod_lt _ hpos
  have h1 : (((List.range (g.fullGroupCount - 1)).map
        (fun j => (g0 + j) % g.fullGroupCount)).map (group_free_count g d)).sum
      = (((List.range (g.fullGroupCount - 1)).map
        (fun j => (g0 + j) % g.fullGroupCount)).toFinset).sum
          (group_free_count g d) :=
    (List.sum_toFinset _ hnodup).symm
  have h2 : (((List.range (g.fullGroupCount - 1)).map
        (fun j => (g0 + j) % g.fullGroupCount)).toFinset).sum
          (group_free_count g d)
      ≤ (Finset.range g.fullGroupCount).sum (group_free_count g d) := by
    refine Finset.sum_le_sum_of_subset ?_
    intro x hx
    rw [List.mem_toFinset] at hx
    exact Finset.mem_range.mpr (hmem x hx)
  have h3 : (Finset.range g.fullGroupCount).sum (group_free_count g d)
      = total_free_blocks g d := by
    rw [← list_range_toFinset]
    exact List.sum_toFinset _ (List.nodup_range _)
  rw [h1]
  exact h2.trans (le_of_eq h3)

set_option maxHeartbeats 4000000

/-- Claim C1: for the configured device size and block size, the Geometry
Calculator's four region sizes — the 3 fixed blocks (superblock copy, block
bitmap, inode bitmap), the descriptor-table span, the inode-table span and
the data-block count — sum exactly to blocks-per-group.  The hypotheses state
that the configuration admits at least one full group (otherwise the source's
`constexpr` division by `FULL_GROUP_COUNT` does not compile) and that a group
has room for its three fixed blocks and descriptor table (no unsigned
underflow in `remain_block_size`). -/
theorem geometry_regions_sum_to_blocks_per_group (ds bs : Nat)
    (hfgc : 0 < (block_group_calculation ds bs).fullGroupCount)
    (hroom : 3 + (block_group_calculation ds bs).groupDescBlockCount
      ≤ (block_group_calculation ds bs).blocksPerGroup) :
    3 + (block_group_calculation ds bs).groupDescBlockCount
      + (block_group_calculation ds bs).inodesTableBlockCount
      + (block_group_calculation ds bs).dataBlockCount
      = (block_group_calculation ds bs).blocksPerGroup := by
  simp only [block_group_calculation] at hfgc hroom ⊢
  have hbs : 0 < bs := by
    by_contra hb
    have hb0 : bs = 0 := by omega
    subst hb0
    simp [FULL_GROUP_COUNT, MAX_BLOCKS_PER_GROUP] at hfgc
  have key : inodes_table_block_count ds bs
      ≤ blocks_per_group ds bs - 3 - group_desc_block_count ds bs := by
    have hm : inodes_per_group ds bs * (bytes_per_inode + INODE_SIZE)
        ≤ (blocks_per_group ds bs - 3 - group_desc_block_count ds bs) * bs := by
      calc inodes_per_group ds bs * (bytes_per_inode + INODE_SIZE)
          ≤ remain_block_size ds bs := Nat.div_mul_le_self _ _
        _ = (blocks_per_group ds bs - 3 - group_desc_block_count ds bs) * bs :=
          rfl
    have h128 : inodes_per_group ds bs * INODE_SIZE
        ≤ (blocks_per_group ds bs - 3 - group_desc_block_count ds bs) * bs :=
      le_trans (Nat.mul_le_mul_left _ (Nat.le_add_left _ _)) hm
    unfold inodes_table_block_count ceil
    have hlt : inodes_per_group ds bs * INODE_SIZE + bs - 1
        < ((blocks_per_group ds bs - 3 - group_desc_block_count ds bs) + 1)
            * bs := by
      rw [Nat.succ_mul]
      omega
    have hdiv := (Nat.div_lt_iff_lt_mul hbs).mpr hlt
    omega
  have hdata : data_block_count ds bs
      = blocks_per_group ds bs - 3 - group_desc_block_count ds bs
        - inodes_table_block_count ds bs := rfl
  omega

/-- Claim C1 witness: the hypotheses and the conclusion hold at the modelled
one-full-group configuration (16 MiB device, 1 KiB blocks). -/
theorem geometry_regions_sum_witness :
    (0 < (block_group_calculation DS1 BLOCK_SIZE).fullGroupCount ∧
      3 + (block_group_calculation DS1 BLOCK_SIZE).groupDescBlockCount
        ≤ (block_group_calculation DS1 BLOCK_SIZE).blocksPerGroup) ∧
    3 + (block_group_calculation DS1 BLOCK_SIZE).groupDescBlockCount
      + (block_group_calculation DS1 BLOCK_SIZE).inodesTableBlockCount
      + (block_group_calculation DS1 BLOCK_SIZE).dataBlockCount
      = (block_group_calculation DS1 BLOCK_SIZE).blocksPerGroup :=
  ⟨⟨by decide, by decide⟩,
    geometry_regions_sum_to_blocks_per_group DS1 BLOCK_SIZE
      (by decide) (by decide)⟩

/-- Claim C2: the claim promises that `allocate(0, 1)` immediately after
`Format` with full-group count 1 returns one address.  In the source the
group-walk condition `(i + 1) % full_group_count != group_id` is false at
once when `full_group_count = 1`, so no group is ever scanned: on the 16 MiB
device (one full group) the freshly formatted group-0 block bitmap still has
free bit 486 (the first data block), yet the allocator returns the empty
vector, and `format` itself then dereferences `front()` of that empty vector
(undefined behaviour, modelled as `none`). -/
theorem alloc_after_format_one_group_returns_nothing :
    readBitmap (meta1 (get_group_block_bitmap_index geo1 0)) 486 = false ∧
    get_free_block_indexes geo1 meta1 0 1 = [] ∧
    format DS1 blankDisk = none :=
  ⟨by decide, by decide, rfl⟩

/-- Claim C3: the claim says that after `Format` inode 2 is marked used in
group 0's inode bitmap and the root inode record has been written, so that
`get_inode(2)` returns a directory inode.  On the three-full-group device
`format` completes, but the group-0 inode-bitmap block is still the zero
block written by the initialisation loop (the source sets bit 2 — which is
inode 3's bit, not inode 2's bit 1 — only in an in-memory copy it never
stores), and `get_inode(2)` returns the all-zero record because no
`write_inode` call ever stores the root inode. -/
theorem root_inode_never_persisted :
    (format DS2 blankDisk).isSome = true ∧
    img2 (get_group_inode_bitmap_index geo2 0) = Block.zero ∧
    readBitmap (img2 (get_group_inode_bitmap_index geo2 0)) (2 - 1) = false ∧
    readBitmap (img2 (get_group_inode_bitmap_index geo2 0))
      format_root_marked_bit = false ∧
    get_inode geo2 img2 2 = zeroInode :=
  ⟨by decide, rfl, by decide, by decide, by decide⟩

/-- Claim C4: when `Format` completes, the root directory's allocated data
block contains exactly the two entries `.` and `..`, both for inode 2, the
first with record length equal to its natural size rounded up to a 4-byte
boundary and the second filling the remainder, the two record lengths
summing to the block size. -/
theorem root_dir_block_entries (ds : Nat) (d0 d : Disk)
    (h : format ds d0 = some d) :
    d (root_block_index ds d0) = Block.dir [dot_entry, dotdot_entry] ∧
    dot_entry.inode = 2 ∧ dotdot_entry.inode = 2 ∧
    dot_entry.rec_len = roundup (8 + dot_entry.name_len) 4 ∧
    dot_entry.rec_len + dotdot_entry.rec_len = BLOCK_SIZE := by
  refine ⟨?_, by decide, by decide, by decide, by decide⟩
  simp only [format] at h
  unfold root_block_index
  rcases halloc : get_free_block_indexes (block_group_calculation ds BLOCK_SIZE)
      (format_metadata ds d0) 0 1 with _ | ⟨a, l⟩
  · rw [halloc] at h
    simp at h
  · rw [halloc] at h
    simp only [Option.some.injEq] at h
    subst h
    simp [writeBlock]

/-- Claim C4 witness: on the three-full-group 32 MiB device `format`
completes and the conclusion holds. -/
theorem root_dir_block_entries_witness :
    format DS2 blankDisk = some img2 ∧
    (img2 (root_block_index DS2 blankDisk)
        = Block.dir [dot_entry, dotdot_entry] ∧
      dot_entry.inode = 2 ∧ dotdot_entry.inode = 2 ∧
      dot_entry.rec_len = roundup (8 + dot_entry.name_len) 4 ∧
      dot_entry.rec_len + dotdot_entry.rec_len = BLOCK_SIZE) :=
  ⟨rfl, root_dir_block_entries DS2 blankDisk img2 rfl⟩

/-- Claim C5: `check_is_ext2_format` accepts a device exactly when all six
superblock checks hold — magic value, encoded block size, first-data-block
field, inodes-per-group bound, first usable inode number and inode record
size; any single mismatch yields rejection. -/
theorem probe_accepts_iff_six_checks (d : Disk) :
    check_is_ext2_format d = true ↔
      ((readSuper (d 1)).s_magic = EXT2_SUPER_MAGIC ∧
        1024 * 2 ^ (readSuper (d 1)).s_log_block_size = BLOCK_SIZE ∧
        (readSuper (d 1)).s_first_data_block = 1 ∧
        (readSuper (d 1)).s_inodes_per_group ≤ 8 * BLOCK_SIZE ∧
        (readSuper (d 1)).s_first_ino = EXT2_GOOD_OLD_FIRST_INO ∧
        (readSuper (d 1)).s_inode_size = INODE_SIZE) := by
  unfold check_is_ext2_format
  simp [Bool.and_eq_true, decide_eq_true_iff, beq_iff_eq, and_assoc]

/-- Claim C6: the superblock `format` writes to block 1 passes every probe
check (the probe accepts the formatted device), while the all-zero device is
rejected (its magic field reads 0). -/
theorem probe_accepts_format_rejects_blank :
    check_is_ext2_format img2 = true ∧
    (format DS2 blankDisk).isSome = true ∧
    check_is_ext2_format blankDisk = false :=
  ⟨by decide, by decide, by decide⟩

/-- Claim C7: the claim says `get_inode`/`write_inode` access exactly the one
inode-table block containing the in-group index.  The source instead always
reads the group's first inode-table block: for the valid inode number 10
(group 0, in-group index 9, with only 8 records per 1 KiB block) the block it
reads differs from the block containing the record, and the access runs past
the single-block buffer. -/
theorem get_inode_reads_wrong_block :
    inode_num_valid geo2 10 ∧
    get_inode_block_index geo2 10 = get_group_inode_table_index geo2 0 ∧
    inode_block_containing geo2 10 = get_group_inode_table_index geo2 0 + 1 ∧
    get_inode_block_index geo2 10 ≠ inode_block_containing geo2 10 :=
  ⟨by decide, by decide, by decide, by decide⟩

/-- Claim C8 (amended): when fewer than `n` free blocks exist in total across
the full groups' on-disk block bitmaps, `get_free_block_indexes` returns the
empty vector.  The failed attempt changes no on-disk state: the source
mutates only a scratch in-memory bitmap and never stores it, which the pure
embedding reflects. -/
theorem alloc_insufficient_returns_empty (g : Geometry) (d : Disk)
    (g0 n : Nat) (hg : g0 < g.fullGroupCount)
    (hn : total_free_blocks g d < n) :
    get_free_block_indexes g d g0 n = [] := by
  unfold get_free_block_indexes
  apply alloc_loop_empty
  exact lt_of_le_of_lt (visit_sum_le_total g d g0 hg) hn

/-- Claim C8 witness: a two-group device with a single free block cannot
satisfy a request for two blocks. -/
theorem alloc_insufficient_returns_empty_witness :
    (0 < tiny_geometry.fullGroupCount ∧
      total_free_blocks tiny_geometry tiny_disk < 2) ∧
    get_free_block_indexes tiny_geometry tiny_disk 0 2 = [] :=
  ⟨⟨by decide, by decide⟩,
    alloc_insufficient_returns_empty tiny_geometry tiny_disk 0 2
      (by decide) (by decide)⟩

/-- Claim C8 counterexample to the non-rollback caveat as stated: on the
two-group device with a single free block (bit 2 of group 0, backing block
3), a failed request for two blocks marks that bit used in the scan's
in-memory bitmap and returns the empty vector, yet afterwards the on-disk
bitmap still shows the bit free — no block remains "marked used but not
rolled back", because the source never stores the mutated bitmap (there is
no per-group flush at all). -/
theorem alloc_failure_marks_not_persisted :
    (scan_group_bitmap 4 1 2 (readBitmap (tiny_disk 3)) 0 []).1 2 = true ∧
    get_free_block_indexes tiny_geometry tiny_disk 0 2 = [] ∧
    readBitmap (tiny_disk 3) 2 = false :=
  ⟨by decide, by decide, by decide⟩

/-- Claim C9: loading a device `format` just produced reconstructs exactly
the in-memory geometry state `format` computed and stored — including the
full-group count recomputed as total inode count divided by
inodes-per-group. -/
theorem read_info_matches_format_geometry :
    read_info img2 = format_info geo2 ∧
    (format_super_block geo2).s_inodes_count
        / (format_super_block geo2).s_inodes_per_group
      = geo2.fullGroupCount :=
  ⟨by decide, by decide⟩

/-- Claim C10: the root-directory step of `format` writes only the allocated
data block: afterwards every group's superblock copy still holds the
format-time value (free blocks = data-block count × full-group count, free
inodes = inodes-per-group × full-group count), every group's descriptor
table still records the format-time free counts, and every group's
inode-bitmap block is still the zero block — nothing was decremented or
marked for the root directory's block or inode 2. -/
theorem format_root_step_frame :
    ∀ i, i < geo2.fullGroupCount →
      readSuper (img2 (get_group_super_block_index geo2 i))
          = format_super_block geo2 ∧
      (format_super_block geo2).s_free_blocks_count
          = geo2.dataBlockCount * geo2.fullGroupCount ∧
      (format_super_block geo2).s_free_inodes_count
          = geo2.inodesPerGroup * geo2.fullGroupCount ∧
      readDescs (img2 (get_group_group_desc_table_index geo2 i))
          = format_group_desc_table geo2 ∧
      (format_group_desc geo2 i).bg_free_blocks_count = geo2.dataBlockCount ∧
      (format_group_desc geo2 i).bg_free_inodes_count = geo2.inodesPerGroup ∧
      img2 (get_group_inode_bitmap_index geo2 i) = Block.zero := by
  intro i hi
  have h3 : geo2.fullGroupCount = 3 := by decide
  rw [h3] at hi
  interval_cases i
  · exact ⟨by decide, by decide, by decide, by decide, by decide, by decide,
      rfl⟩
  · exact ⟨by decide, by decide, by decide, by decide, by decide, by decide,
      rfl⟩
  · exact ⟨by decide, by decide, by decide, by decide, by decide, by decide,
      rfl⟩

/-- Claim C10 witness: the frame condition instantiated at group 0. -/
theorem format_root_step_frame_witness :
    0 < geo2.fullGroupCount ∧
    (readSuper (img2 (get_group_super_block_index geo2 0))
        = format_super_block geo2 ∧
      (format_super_block geo2).s_free_blocks_count
          = geo2.dataBlockCount * geo2.fullGroupCount ∧
      (format_super_block geo2).s_free_inodes_count
          = geo2.inodesPerGroup * geo2.fullGroupCount ∧
      readDescs (img2 (get_group_group_desc_table_index geo2 0))
          = format_group_desc_table geo2 ∧
      (format_group_desc geo2 0).bg_free_blocks_count = geo2.dataBlockCount ∧
      (format_group_desc geo2 0).bg_free_inodes_count = geo2.inodesPerGroup ∧
      img2 (get_group_inode_bitmap_index geo2 0) = Block.zero) :=
  ⟨by decide, format_root_step_frame 0 (by decide)⟩

end Ext2m
